import Mathlib

/-!
Verification of the fito_tomat reporting/aggregation engine.

Shallow embedding of `reports/services.py`, `reports/views.py` and
`reports/serializers.py`: Django querysets become Lean list pipelines over an
explicit `Database`, timestamps become `Int` instants (timezone-aware by
construction), Python floats become `ℚ`, and the ambient `timezone.now()` is
passed explicitly.  Fallible library calls (`json.loads`, the file write in
`persist_report_file`) are modelled as explicit parameters / outcomes.
-/

namespace FitoTomat

/-- Python's `round` uses round-half-to-even (banker's rounding). -/
def roundHalfEven (q : ℚ) : ℤ :=
  let f : ℤ := ⌊q⌋
  let r : ℚ := q - (f : ℚ)
  if r < 1/2 then f
  else if 1/2 < r then f + 1
  else if f % 2 = 0 then f else f + 1

/-- Python `round(x, n)` on a rational embedding of the float value. -/
def pyRound (q : ℚ) (n : ℕ) : ℚ :=
  ((roundHalfEven (q * (10 : ℚ) ^ n) : ℤ) : ℚ) / (10 : ℚ) ^ n

/-- Python's `a or b` for a nullable string: replaces `None` and `""`. -/
def pyStrOr (a : Option String) (b : String) : String :=
  match a with
  | none => b
  | some s => if s = "" then b else s

/-- Display columns of a `users` row reached through a FK. -/
structure UserRef where
  fullName : String
  username : String
deriving DecidableEq, Repr

/-- Row of the `diagnoses` table, with the joined columns the report queries
reach through (`disease__name`, `image__section__greenhouse__name`,
`image__section__name`, `verified_by`). -/
structure Diagnosis where
  id : Nat
  timestamp : Int
  diseaseId : Nat
  diseaseName : String
  mlDiseaseId : Option Nat
  confidence : ℚ
  isVerified : Bool
  verifiedBy : Option UserRef
  greenhouseName : Option String
  sectionName : Option String
  imagePath : String
deriving DecidableEq, Repr

/-- Row of the `tasks` table, with the operator's display columns joined in
(`operator` is a non-nullable FK in `operations/models.py`). -/
structure Task where
  id : Nat
  recommendationId : Nat
  operatorFullName : String
  operatorUsername : String
  description : String
  status : String
  deadline : Int
  createdAt : Int
  completedAt : Option Int
deriving DecidableEq, Repr

/-- Row of the `recommendations` table. -/
structure Recommendation where
  id : Nat
  diagnosisId : Nat
  treatmentPlanText : String
  createdAt : Int
deriving DecidableEq, Repr

/-- The source tables the reporting queries read. -/
structure Database where
  diagnoses : List Diagnosis
  tasks : List Task
  recommendations : List Recommendation
deriving DecidableEq, Repr

/-- `DiseaseDistributionEntry` of `reports/services.py`. -/
structure DiseaseDistributionEntry where
  diseaseName : String
  total : Nat
deriving DecidableEq, Repr

/-- `DiagnosticsPayload` of `reports/services.py`. -/
structure DiagnosticsPayload where
  total : Nat
  avgConfidence : Option ℚ
  distribution : List DiseaseDistributionEntry
deriving DecidableEq, Repr

/-- `RecommendationsPayload` of `reports/services.py`. -/
structure RecommendationsPayload where
  total : Nat
deriving DecidableEq, Repr

/-- `TasksPayload` of `reports/services.py`. -/
structure TasksPayload where
  total : Nat
  completedOnTime : Nat
  overdue : Nat
deriving DecidableEq, Repr

/-- The `period` group: `start`/`end` instants (`isoformat` rendering kept as
the instant itself in this embedding). -/
structure PeriodPayload where
  periodStart : Int
  periodEnd : Int
deriving DecidableEq, Repr

/-- One `timeseries` entry (`TruncDate` day, diagnosis count). -/
structure TimeseriesEntry where
  date : Int
  total : Nat
deriving DecidableEq, Repr

/-- One `greenhouse_stats` entry after the `or '—'` placeholder rendering. -/
structure GreenhouseStatEntry where
  greenhouse : String
  sectionName : String
  total : Nat
deriving DecidableEq, Repr

/-- One `operator_stats` entry after the display-name fallback chain. -/
structure OperatorStatEntry where
  operatorName : String
  total : Nat
deriving DecidableEq, Repr

/-- The `economics` group. -/
structure EconomicsPayload where
  preventedLoss : ℚ
  savedHours : ℚ
deriving DecidableEq, Repr

/-- `ReportPayload` of `reports/services.py`: a `TypedDict(total=False)`, so
every group key may be present or absent — embedded as `Option` fields. -/
structure ReportPayload where
  period : Option PeriodPayload := none
  diagnostics : Option DiagnosticsPayload := none
  recommendations : Option RecommendationsPayload := none
  tasks : Option TasksPayload := none
  timeseries : Option (List TimeseriesEntry) := none
  greenhouseStats : Option (List GreenhouseStatEntry) := none
  operatorStats : Option (List OperatorStatEntry) := none
  economics : Option EconomicsPayload := none
deriving DecidableEq, Repr

/-- The keys present in the payload dict, in the declaration order of
`ReportPayload`. -/
def payloadKeys (p : ReportPayload) : List String :=
  (if p.period.isSome then ["period"] else []) ++
  (if p.diagnostics.isSome then ["diagnostics"] else []) ++
  (if p.recommendations.isSome then ["recommendations"] else []) ++
  (if p.tasks.isSome then ["tasks"] else []) ++
  (if p.timeseries.isSome then ["timeseries"] else []) ++
  (if p.greenhouseStats.isSome then ["greenhouse_stats"] else []) ++
  (if p.operatorStats.isSome then ["operator_stats"] else []) ++
  (if p.economics.isSome then ["economics"] else [])

/-- Django `field__range=(start, end)` translates to SQL `BETWEEN`: inclusive
at both ends. -/
def inPeriod (s e t : Int) : Bool :=
  decide (s ≤ t ∧ t ≤ e)

/-- `values(k).annotate(total=Count('id'))`: one group per distinct key with
the number of source rows carrying it.  (SQL emits groups in an unspecified
order; every claim-relevant ordering is imposed afterwards by `order_by`.) -/
def groupCounts {α : Type} [DecidableEq α] (keys : List α) : List (α × Nat) :=
  keys.dedup.map fun k => (k, keys.count k)

/-- `order_by('-total')`: stable sort, descending by the count. -/
def sortByTotalDesc {α : Type} (l : List (α × Nat)) : List (α × Nat) :=
  l.insertionSort fun a b => b.2 ≤ a.2

/-- `order_by('dt')`: ascending by the truncated date. -/
def sortByDateAsc (l : List (Int × Nat)) : List (Int × Nat) :=
  l.insertionSort fun a b => a.1 ≤ b.1

/-- `TruncDate('timestamp')`: truncate an instant to its calendar day (the
embedding uses whole days of 86400 seconds in the system timezone). -/
def truncDate (t : Int) : Int :=
  t.fdiv 86400

/-- `generate_report_payload` of `reports/services.py` (MetricsAggregator).
`now` is the value of `timezone.now()` at aggregation time; `periodStart` and
`periodEnd` are the already-aware bounds. -/
def generate_report_payload (db : Database) (periodStart periodEnd now : Int) :
    ReportPayload :=
  let diagnoses_qs := db.diagnoses.filter fun d => inPeriod periodStart periodEnd d.timestamp
  let tasks_qs := db.tasks.filter fun t => inPeriod periodStart periodEnd t.createdAt
  let recommendations_qs := db.recommendations.filter fun r =>
    inPeriod periodStart periodEnd r.createdAt
  let disease_distribution :=
    sortByTotalDesc (groupCounts (diagnoses_qs.map (·.diseaseName)))
  let avg_confidence : Option ℚ :=
    if diagnoses_qs.length = 0 then none
    else some ((diagnoses_qs.map (·.confidence)).sum / (diagnoses_qs.length : ℚ))
  let completed_on_time :=
    (tasks_qs.filter fun t =>
      match t.completedAt with
      | some c => decide (c ≤ t.deadline)
      | none => false).length
  let overdue :=
    (tasks_qs.filter fun t =>
      decide (t.deadline < now) && t.completedAt.isNone).length
  let timeseries :=
    sortByDateAsc (groupCounts (diagnoses_qs.map fun d => truncDate d.timestamp))
  let greenhouse_stats :=
    sortByTotalDesc (groupCounts (diagnoses_qs.map fun d => (d.greenhouseName, d.sectionName)))
  let operator_stats :=
    sortByTotalDesc (groupCounts (tasks_qs.map fun t => (t.operatorFullName, t.operatorUsername)))
  let prevented_loss : ℚ := (diagnoses_qs.length : ℚ) * (3/2)
  let saved_hours : ℚ := (tasks_qs.length : ℚ) * (1/2)
  { period := some { periodStart := periodStart, periodEnd := periodEnd }
    diagnostics := some
      { total := diagnoses_qs.length
        avgConfidence :=
          match avg_confidence with
          | some a => some (pyRound a 4)
          | none => none
        distribution := disease_distribution.map fun p => ⟨p.1, p.2⟩ }
    recommendations := some { total := recommendations_qs.length }
    tasks := some
      { total := tasks_qs.length
        completedOnTime := completed_on_time
        overdue := overdue }
    timeseries := some (timeseries.map fun p => ⟨p.1, p.2⟩)
    greenhouseStats := some (greenhouse_stats.map fun p =>
      ⟨pyStrOr p.1.1 "—", pyStrOr p.1.2 "—", p.2⟩)
    operatorStats := some (operator_stats.map fun p =>
      ⟨if p.1.1 ≠ "" then p.1.1 else if p.1.2 ≠ "" then p.1.2 else "—", p.2⟩)
    economics := some
      { preventedLoss := pyRound prevented_loss 2
        savedHours := pyRound saved_hours 2 } }

/-- `build_report_payload_by_type` of `reports/services.py` (PayloadShaper). -/
def build_report_payload_by_type (db : Database) (periodStart periodEnd now : Int)
    (report_type : String) : ReportPayload :=
  let base := generate_report_payload db periodStart periodEnd now
  if report_type = "diagnostics_summary" then
    { period := base.period
      diagnostics := base.diagnostics
      timeseries := base.timeseries
      greenhouseStats := base.greenhouseStats }
  else if report_type = "tasks_summary" then
    { period := base.period
      recommendations := base.recommendations
      tasks := base.tasks
      operatorStats := base.operatorStats }
  else
    base

/-- One diagnosis detail row of `fetch_detailed_data`. -/
structure DiagRow where
  id : Nat
  timestamp : Int
  greenhouse : String
  sectionName : String
  imageStr : String
  disease : String
  confidence : ℚ
  status : String
  verifiedByName : String
deriving DecidableEq, Repr

/-- One recommendation/task detail row of `fetch_detailed_data`; the task-side
fields are `none`/`""` for a recommendation without tasks (the code renders
`''` there). -/
structure RecTaskRow where
  recId : Nat
  plan : String
  taskId : Option Nat
  taskDesc : String
  operatorName : String
  taskStatus : String
  deadline : Option Int
  completedAt : Option Int
deriving DecidableEq, Repr

/-- Return value of `fetch_detailed_data`. -/
structure DetailedData where
  diagnoses : List DiagRow
  recTasks : List RecTaskRow
deriving DecidableEq, Repr

/-- The inner `status_label` of `fetch_detailed_data`. -/
def status_label (d : Diagnosis) : String :=
  if d.isVerified then
    match d.mlDiseaseId with
    | some m => if m ≠ d.diseaseId then "Скорректирован" else "Подтвержден"
    | none => "Подтвержден"
  else "Ожидает проверки"

/-- Operator display fallback used for detail rows:
`full_name if full_name else username` (the FK is non-nullable). -/
def operatorDisplay (t : Task) : String :=
  if t.operatorFullName ≠ "" then t.operatorFullName else t.operatorUsername

/-- Verifier display fallback used for diagnosis detail rows. -/
def verifierDisplay (v : Option UserRef) : String :=
  match v with
  | some u => if u.fullName ≠ "" then u.fullName else u.username
  | none => ""

/-- `order_by('-timestamp')` on diagnoses. -/
def sortByTimestampDesc (l : List Diagnosis) : List Diagnosis :=
  l.insertionSort fun a b => b.timestamp ≤ a.timestamp

/-- The rows one recommendation contributes in `fetch_detailed_data`: the
code groups the in-period tasks by `recommendation_id`
(`tasks_by_rec.setdefault(...).append(...)`, preserving query order) and then
looks the group up with the `[None]` default — equivalently, the tasks of the
queryset whose parent is this recommendation, or a single row with empty
task-side fields when there are none. -/
def rec_task_rows_for (tasks_qs : List Task) (rec : Recommendation) :
    List RecTaskRow :=
  match tasks_qs.filter (fun t => decide (t.recommendationId = rec.id)) with
  | [] =>
    [{ recId := rec.id
       plan := rec.treatmentPlanText
       taskId := none
       taskDesc := ""
       operatorName := ""
       taskStatus := ""
       deadline := none
       completedAt := none }]
  | ts => ts.map fun t =>
    { recId := rec.id
      plan := rec.treatmentPlanText
      taskId := some t.id
      taskDesc := t.description
      operatorName := operatorDisplay t
      taskStatus := t.status
      deadline := some t.deadline
      completedAt := t.completedAt }

/-- `fetch_detailed_data` of `reports/services.py` (DetailExtractor). -/
def fetch_detailed_data (db : Database) (periodStart periodEnd : Int) :
    DetailedData :=
  let diagnoses_qs :=
    sortByTimestampDesc (db.diagnoses.filter fun d => inPeriod periodStart periodEnd d.timestamp)
  let diagnoses_rows := diagnoses_qs.map fun d =>
    { id := d.id
      timestamp := d.timestamp
      greenhouse := (d.greenhouseName).getD ""
      sectionName := (d.sectionName).getD ""
      imageStr := d.imagePath
      disease := d.diseaseName
      confidence := pyRound (d.confidence * 100) 2
      status := status_label d
      verifiedByName := verifierDisplay d.verifiedBy : DiagRow }
  let recommendations_qs :=
    ((db.recommendations.filter fun r => inPeriod periodStart periodEnd r.createdAt).insertionSort
      fun a b => b.createdAt ≤ a.createdAt)
  let tasks_qs :=
    ((db.tasks.filter fun t => inPeriod periodStart periodEnd t.createdAt).insertionSort
      fun a b => b.createdAt ≤ a.createdAt)
  let rec_task_rows := recommendations_qs.flatMap (rec_task_rows_for tasks_qs)
  { diagnoses := diagnoses_rows, recTasks := rec_task_rows }

/-- JSON values, the result type of `json.loads`. -/
inductive Json where
  | null
  | bool (b : Bool)
  | num (q : ℚ)
  | str (s : String)
  | arr (items : List Json)
  | obj (fields : List (String × Json))
deriving Repr

/-- The persisted `Report` row of `reports/models.py`. -/
structure ReportRec where
  id : Nat
  userId : Nat
  userFullName : String
  report_type : String
  period_start : Int
  period_end : Int
  data : String
  generatedAt : Int
  file_path : String
deriving DecidableEq, Repr

/-- `ReportSerializer.get_data` of `reports/serializers.py`: empty stored data
or a JSON decode failure degrade to the empty object, never an error.
`loads` is the embedding of `json.loads` (returning `none` on
`JSONDecodeError`). -/
def get_data (loads : String → Option Json) (data : String) : Json :=
  if data = "" then Json.obj []
  else
    match loads data with
    | some v => v
    | none => Json.obj []

/-- The serialized representation `ReportSerializer` emits for GetReport and
ListReports. -/
structure SerializedReport where
  id : Nat
  userId : Nat
  userFullName : String
  report_type : String
  period_start : Int
  period_end : Int
  data : Json
  generatedAt : Int
  file_path : String
deriving Repr

/-- Serialization of one `Report` record: a total function on records. -/
def serialize_report (loads : String → Option Json) (r : ReportRec) :
    SerializedReport :=
  { id := r.id
    userId := r.userId
    userFullName := r.userFullName
    report_type := r.report_type
    period_start := r.period_start
    period_end := r.period_end
    data := get_data loads r.data
    generatedAt := r.generatedAt
    file_path := r.file_path }

/-- Retrieval errors surfaced by the report views (`Http404`). -/
inductive RetrieveError where
  | notFound
deriving DecidableEq, Repr

/-- DRF `get_object`: look the record up by primary key. -/
def get_object (reports : List ReportRec) (pk : Nat) : Option ReportRec :=
  reports.find? fun r => decide (r.id = pk)

/-- Durable storage as a path-to-content association list;
`Path.exists` is a successful lookup. -/
def fsRead (fs : List (String × String)) (path : String) : Option String :=
  (fs.find? fun p => decide (p.1 = path)).map (·.2)

/-- `ReportViewSet.download` of `reports/views.py`: 404 when the record is
missing, when its `file_path` is empty, or when the file no longer exists;
otherwise the raw file bytes. -/
def download (reports : List ReportRec) (fs : List (String × String))
    (pk : Nat) : Except RetrieveError String :=
  match get_object reports pk with
  | none => Except.error RetrieveError.notFound
  | some report =>
    if report.file_path = "" then Except.error RetrieveError.notFound
    else
      match fsRead fs report.file_path with
      | none => Except.error RetrieveError.notFound
      | some content => Except.ok content

/-- `GetReport` (DRF retrieve): serializes the record; it never touches the
file. -/
def getReport (loads : String → Option Json) (reports : List ReportRec)
    (pk : Nat) : Except RetrieveError SerializedReport :=
  match get_object reports pk with
  | none => Except.error RetrieveError.notFound
  | some r => Except.ok (serialize_report loads r)

/-- One audit-log entry (only the fields the lifecycle claims need). -/
structure AuditEntry where
  actionType : String
  tableName : String
  recordId : Nat
deriving DecidableEq, Repr

/-- The mutable state the report lifecycle touches: the `reports` table, the
reports directory, and the audit log. -/
structure SysState where
  reports : List ReportRec
  files : List (String × String)
  audit : List AuditEntry
deriving DecidableEq, Repr

/-- `settings.REPORTS_DIR / f'report_{report_id}.json'`. -/
def report_file_path (report_id : Nat) : String :=
  "generated_reports/report_" ++ toString report_id ++ ".json"

/-- Outcome of a `CreateReport` request. -/
inductive CreateResult where
  | created (r : ReportRec)
  | persistenceError
deriving DecidableEq, Repr

/-- Resulting state plus response of `perform_create`. -/
structure CreateOutcome where
  state : SysState
  result : CreateResult
deriving DecidableEq, Repr

/-- `ReportViewSet.perform_create` of `reports/views.py`.  The record is saved
(with `file_path=''`, audit-logged) before `persist_report_file` runs; the
file write is fallible (`writeOk`), and no transaction wraps the two steps, so
on a failed write the exception propagates while the record stays committed.
`dumps` embeds `json.dumps(payload, ensure_ascii=False)`; `write_text`
overwrites, hence the new file is consed in front of the list `fsRead`
searches front-first. -/
def perform_create (dumps : ReportPayload → String) (db : Database)
    (st : SysState) (userId : Nat) (userFullName : String)
    (report_type : String) (period_start period_end now : Int)
    (newId : Nat) (writeOk : Bool) : CreateOutcome :=
  let payload := build_report_payload_by_type db period_start period_end now report_type
  let instance0 : ReportRec :=
    { id := newId
      userId := userId
      userFullName := userFullName
      report_type := report_type
      period_start := period_start
      period_end := period_end
      data := dumps payload
      generatedAt := now
      file_path := "" }
  let st1 : SysState :=
    { st with
      reports := st.reports ++ [instance0]
      audit := st.audit ++
        [{ actionType := "CREATE", tableName := "reports", recordId := newId }] }
  if writeOk then
    let path := report_file_path newId
    let written : ReportRec := { instance0 with file_path := path }
    { state :=
        { st1 with
          files := (path, dumps payload) :: st1.files
          reports := st1.reports.map fun r => if r.id = newId then written else r }
      result := CreateResult.created written }
  else
    { state := st1, result := CreateResult.persistenceError }

/-- Sheets of the spreadsheet rendering, each carrying its tab name, header
row and data rows.  `emptyDefault` is openpyxl's untouched initial sheet. -/
inductive Sheet where
  | diagSheet (name : String) (headers : List String) (rows : List DiagRow)
  | recTaskSheet (name : String) (headers : List String) (rows : List RecTaskRow)
  | analyticsSheet (name : String) (headers : List String) (rows : List (String × ℚ))
  | emptyDefault (name : String)
deriving Repr

/-- Header row of the diagnoses sheet in `build_excel_report`. -/
def excelHeadersDiag : List String :=
  ["ID Диагноза", "Дата/время", "Теплица", "Секция", "Изображение (путь)",
   "Заболевание", "Точность (%)", "Статус", "Агроном"]

/-- Header row of the recommendation/task sheet in `build_excel_report`. -/
def excelHeadersRecTask : List String :=
  ["ID Рекомендации", "План лечения", "ID Задачи", "Описание задачи",
   "Исполнитель", "Статус задачи", "Срок выполнения", "Факт выполнения"]

/-- The analytics key/value rows shared by the spreadsheet and document
renderers (reached only for `full_report`, where every group is present;
absent groups default like the code's `or 0` / `.get(..., 0)`). -/
def analyticsRows (summary : ReportPayload) : List (String × ℚ) :=
  let d := (summary.diagnostics).getD { total := 0, avgConfidence := none, distribution := [] }
  let r := (summary.recommendations).getD { total := 0 }
  let t := (summary.tasks).getD { total := 0, completedOnTime := 0, overdue := 0 }
  [("Всего диагнозов", (d.total : ℚ)),
   ("Средняя точность", (d.avgConfidence).getD 0),
   ("Всего рекомендаций", (r.total : ℚ)),
   ("Всего задач", (t.total : ℚ)),
   ("Выполнено в срок", (t.completedOnTime : ℚ)),
   ("Просрочено", (t.overdue : ℚ)),
   ("Предотвращенные потери (условн.)", ((summary.economics).map (·.preventedLoss)).getD 0),
   ("Экономия трудозатрат (час)", ((summary.economics).map (·.savedHours)).getD 0)]

/-- `build_excel_report` of `reports/services.py`, abstracted to the sheet
structure (styling dropped).  When no diagnostics sheet is made, the
recommendation/task table reuses openpyxl's default active sheet (whose name
stays `Sheet`); when neither is made, the untouched default sheet remains. -/
def build_excel_report (report : ReportRec) (details : DetailedData)
    (summary : ReportPayload) : List Sheet :=
  let include_diag :=
    report.report_type = "diagnostics_summary" ∨ report.report_type = "full_report"
  let include_tasks :=
    report.report_type = "tasks_summary" ∨ report.report_type = "full_report"
  let include_analytics := report.report_type = "full_report"
  if include_diag ∨ include_tasks then
    (if include_diag then
      [Sheet.diagSheet "Диагностики" excelHeadersDiag details.diagnoses] else []) ++
    (if include_tasks then
      [Sheet.recTaskSheet (if include_diag then "Рекомендации и задачи" else "Sheet")
        excelHeadersRecTask details.recTasks] else []) ++
    (if include_analytics then
      [Sheet.analyticsSheet "Аналитика" ["Метрика", "Значение"] (analyticsRows summary)]
     else [])
  else
    [Sheet.emptyDefault "Sheet"] ++
    (if include_analytics then
      [Sheet.analyticsSheet "Аналитика" ["Метрика", "Значение"] (analyticsRows summary)]
     else [])

/-- Flowing sections of the paginated-document rendering. -/
inductive PdfSection where
  | titleBlock (title : String)
  | diagSection (heading : String) (headers : List String) (rows : List DiagRow)
  | recTaskSection (heading : String) (headers : List String) (rows : List RecTaskRow)
  | analyticsSection (heading : String) (rows : List (String × ℚ))
deriving Repr

/-- The human-readable report title, `.get(report_type, report_type)`. -/
def report_title (rt : String) : String :=
  if rt = "diagnostics_summary" then "Сводка по диагностике"
  else if rt = "tasks_summary" then "Сводка по задачам"
  else if rt = "full_report" then "Полный отчёт"
  else rt

/-- Header row of the diagnoses table in `build_pdf_report`. -/
def pdfHeadersDiag : List String :=
  ["ID", "Дата/время", "Теплица", "Секция", "Изображение", "Заболевание",
   "Точность (%)", "Статус", "Агроном"]

/-- Header row of the recommendation/task table in `build_pdf_report`. -/
def pdfHeadersRecTask : List String :=
  ["ID Рекомендации", "План лечения", "ID Задачи", "Описание задачи",
   "Исполнитель", "Статус задачи", "Срок", "Факт"]

/-- `build_pdf_report` of `reports/services.py`, abstracted to its section
structure (fonts, margins and styling dropped). -/
def build_pdf_report (report : ReportRec) (details : DetailedData)
    (summary : ReportPayload) : List PdfSection :=
  let include_diag :=
    report.report_type = "diagnostics_summary" ∨ report.report_type = "full_report"
  let include_tasks :=
    report.report_type = "tasks_summary" ∨ report.report_type = "full_report"
  let include_analytics := report.report_type = "full_report"
  [PdfSection.titleBlock (report_title report.report_type)] ++
  (if include_diag then
    [PdfSection.diagSection "Результаты диагностики" pdfHeadersDiag details.diagnoses]
   else []) ++
  (if include_tasks then
    [PdfSection.recTaskSection "Рекомендации и задачи" pdfHeadersRecTask details.recTasks]
   else []) ++
  (if include_analytics then
    [PdfSection.analyticsSection "Аналитический раздел" (analyticsRows summary)]
   else [])

/-- A spreadsheet sheet rendering diagnosis detail rows. -/
def sheetIsDiagnostics : Sheet → Bool
  | Sheet.diagSheet _ _ _ => true
  | _ => false

/-- A spreadsheet sheet whose header row carries the operator column
(`Исполнитель`) — the only place operator identities render in a workbook. -/
def sheetHasOperatorColumn : Sheet → Bool
  | Sheet.diagSheet _ hs _ => hs.contains "Исполнитель"
  | Sheet.recTaskSheet _ hs _ => hs.contains "Исполнитель"
  | Sheet.analyticsSheet _ hs _ => hs.contains "Исполнитель"
  | Sheet.emptyDefault _ => false

/-- A document section rendering diagnosis detail rows. -/
def sectionIsDiagnostics : PdfSection → Bool
  | PdfSection.diagSection _ _ _ => true
  | _ => false

/-- A document section whose table header carries the operator column. -/
def sectionHasOperatorColumn : PdfSection → Bool
  | PdfSection.diagSection _ hs _ => hs.contains "Исполнитель"
  | PdfSection.recTaskSection _ hs _ => hs.contains "Исполнитель"
  | _ => false

/-! Sample database used by the concrete witnesses. -/

/-- A sample verifier. -/
def sampleUser : UserRef := { fullName := "Анна", username := "anna" }

/-- Sample diagnoses: two in the period `[0, 10]` (disease `A`), one outside. -/
def sampleDiagnoses : List Diagnosis :=
  [{ id := 1, timestamp := 1, diseaseId := 10, diseaseName := "A",
     mlDiseaseId := some 10, confidence := 9/10, isVerified := true,
     verifiedBy := some sampleUser, greenhouseName := some "G1",
     sectionName := some "S1", imagePath := "a.jpg" },
   { id := 2, timestamp := 2, diseaseId := 10, diseaseName := "A",
     mlDiseaseId := some 11, confidence := 8/10, isVerified := true,
     verifiedBy := none, greenhouseName := none, sectionName := none,
     imagePath := "" },
   { id := 3, timestamp := 100, diseaseId := 11, diseaseName := "B",
     mlDiseaseId := none, confidence := 7/10, isVerified := false,
     verifiedBy := none, greenhouseName := some "G1", sectionName := some "S2",
     imagePath := "c.jpg" }]

/-- Sample tasks: in the period `[0, 10]`, one completed on time, one overdue
at `now = 7`; one task outside the period belonging to recommendation 2. -/
def sampleTasks : List Task :=
  [{ id := 1, recommendationId := 1, operatorFullName := "Олег",
     operatorUsername := "oleg", description := "t1", status := "done",
     deadline := 8, createdAt := 1, completedAt := some 5 },
   { id := 2, recommendationId := 1, operatorFullName := "",
     operatorUsername := "oleg", description := "t2", status := "open",
     deadline := 3, createdAt := 2, completedAt := none },
   { id := 3, recommendationId := 2, operatorFullName := "Olga",
     operatorUsername := "olga", description := "t3", status := "open",
     deadline := 50, createdAt := 20, completedAt := none }]

/-- Sample recommendations: two in the period `[0, 10]` (one with two
in-period tasks, one whose only task lies outside), one outside. -/
def sampleRecs : List Recommendation :=
  [{ id := 1, diagnosisId := 1, treatmentPlanText := "p1", createdAt := 1 },
   { id := 2, diagnosisId := 2, treatmentPlanText := "p2", createdAt := 3 },
   { id := 3, diagnosisId := 3, treatmentPlanText := "p3", createdAt := 40 }]

/-- The sample database. -/
def sampleDb : Database :=
  { diagnoses := sampleDiagnoses, tasks := sampleTasks,
    recommendations := sampleRecs }

/-! Helper lemmas. -/

/-- Summing the group counts of `groupCounts` recovers the number of keys. -/
lemma sum_groupCounts {α : Type} [DecidableEq α] (keys : List α) :
    ((groupCounts keys).map (·.2)).sum = keys.length := by
  unfold groupCounts
  rw [List.map_map]
  simpa using List.sum_map_count_dedup_eq_length keys

/-- Sorting by count is a permutation, so the count sum is unchanged. -/
lemma sum_sortByTotalDesc {α : Type} (l : List (α × Nat)) :
    ((sortByTotalDesc l).map (·.2)).sum = (l.map (·.2)).sum :=
  ((List.perm_insertionSort _ l).map (·.2)).sum_eq

/-- Counting two pointwise-exclusive predicates never exceeds the length. -/
lemma countP_disjoint_le {α : Type} (l : List α) (p q : α → Bool)
    (h : ∀ a, ¬(p a = true ∧ q a = true)) :
    l.countP p + l.countP q ≤ l.length := by
  induction l with
  | nil => simp
  | cons a l ih =>
    rw [List.countP_cons, List.countP_cons, List.length_cons]
    have := h a
    cases hp : p a <;> cases hq : q a <;> simp [hp, hq] at this ⊢ <;> omega

/-- C2: for every period, shaping returns exactly the groups mandated by the
report type — `diagnostics_summary` yields exactly `period, diagnostics,
timeseries, greenhouse_stats`; `tasks_summary` yields exactly `period,
recommendations, tasks, operator_stats`; and any other `report_type` value
(including `full_report`) yields the full payload with all eight groups, the
shaper being a total function that raises no error. -/
theorem shaping_yields_exactly_mandated_groups (db : Database) (s e now : Int) :
    payloadKeys (build_report_payload_by_type db s e now "diagnostics_summary") =
      ["period", "diagnostics", "timeseries", "greenhouse_stats"] ∧
    payloadKeys (build_report_payload_by_type db s e now "tasks_summary") =
      ["period", "recommendations", "tasks", "operator_stats"] ∧
    ∀ rt : String, rt ≠ "diagnostics_summary" → rt ≠ "tasks_summary" →
      build_report_payload_by_type db s e now rt =
        generate_report_payload db s e now ∧
      payloadKeys (build_report_payload_by_type db s e now rt) =
        ["period", "diagnostics", "recommendations", "tasks", "timeseries",
         "greenhouse_stats", "operator_stats", "economics"] := by
  refine ⟨rfl, rfl, ?_⟩
  intro rt h1 h2
  rw [build_report_payload_by_type, if_neg h1, if_neg h2]
  exact ⟨rfl, rfl⟩

/-- C2 witness: the hypotheses hold and the conclusion evaluates at the
unrecognized report type `bogus` over the sample database. -/
theorem shaping_yields_exactly_mandated_groups_witness :
    build_report_payload_by_type sampleDb 0 10 7 "bogus" =
      generate_report_payload sampleDb 0 10 7 ∧
    payloadKeys (build_report_payload_by_type sampleDb 0 10 7 "bogus") =
      ["period", "diagnostics", "recommendations", "tasks", "timeseries",
       "greenhouse_stats", "operator_stats", "economics"] :=
  (shaping_yields_exactly_mandated_groups sampleDb 0 10 7).2.2 "bogus"
    (by decide) (by decide)

/-- C6: for every period, the counts in the diagnostics distribution sum
exactly to `diagnostics.total`. -/
theorem distribution_counts_sum_to_total (db : Database) (s e now : Int)
    (dist : List DiseaseDistributionEntry) (tot : Nat)
    (h : ((generate_report_payload db s e now).diagnostics).map
      (fun d => (d.distribution, d.total)) = some (dist, tot)) :
    (dist.map (·.total)).sum = tot := by
  rw [generate_report_payload] at h
  rw [Option.map_some', Option.some.injEq, Prod.mk.injEq] at h
  obtain ⟨hdist, htot⟩ := h
  subst hdist
  subst htot
  simp only [List.map_map]
  have comp :
      ((fun p : DiseaseDistributionEntry => p.total) ∘
        fun p : String × Nat => (⟨p.1, p.2⟩ : DiseaseDistributionEntry)) =
      fun p : String × Nat => p.2 := rfl
  rw [comp, sum_sortByTotalDesc, sum_groupCounts, List.length_map]

/-- C6 witness: evaluated over the sample database on the period `[0, 10]`. -/
theorem distribution_counts_sum_to_total_witness :
    ((generate_report_payload sampleDb 0 10 7).diagnostics).map
      (fun d => (d.distribution, d.total)) =
      some ([{ diseaseName := "A", total := 2 }], 2) ∧
    (([{ diseaseName := "A", total := 2 }] :
        List DiseaseDistributionEntry).map (·.total)).sum = 2 :=
  ⟨by decide,
   distribution_counts_sum_to_total sampleDb 0 10 7 _ _ (by decide)⟩

/-- C7: for every period, `tasks.completed_on_time + tasks.overdue` never
exceeds `tasks.total` (the two conditions exclude each other on the
completion timestamp). -/
theorem completed_plus_overdue_le_total (db : Database) (s e now : Int)
    (t : TasksPayload)
    (h : (generate_report_payload db s e now).tasks = some t) :
    t.completedOnTime + t.overdue ≤ t.total := by
  rw [generate_report_payload] at h
  rw [Option.some.injEq] at h
  subst h
  dsimp only
  set l := db.tasks.filter (fun t => inPeriod s e t.createdAt) with hl
  rw [← List.countP_eq_length_filter, ← List.countP_eq_length_filter]
  apply countP_disjoint_le
  intro a hcontra
  obtain ⟨hp, hq⟩ := hcontra
  cases hc : a.completedAt with
  | none => rw [hc] at hp; simp at hp
  | some c => rw [hc] at hq; simp [Option.isNone] at hq

/-- C7 witness: evaluated over the sample database on the period `[0, 10]`
at `now = 7`. -/
theorem completed_plus_overdue_le_total_witness :
    (generate_report_payload sampleDb 0 10 7).tasks =
      some { total := 2, completedOnTime := 1, overdue := 1 } ∧
    ({ total := 2, completedOnTime := 1, overdue := 1 } :
      TasksPayload).completedOnTime +
      ({ total := 2, completedOnTime := 1, overdue := 1 } :
        TasksPayload).overdue ≤
      ({ total := 2, completedOnTime := 1, overdue := 1 } : TasksPayload).total :=
  ⟨by decide, completed_plus_overdue_le_total sampleDb 0 10 7 _ (by decide)⟩

/-- C5: for every period with zero diagnoses in range, `avg_confidence` is
null (never `0.0`); with at least one diagnosis it is the mean confidence
rounded to 4 decimals. -/
theorem avg_confidence_null_or_rounded_mean (db : Database) (s e now : Int) :
    let ds := db.diagnoses.filter fun d => inPeriod s e d.timestamp
    (ds = [] →
      ((generate_report_payload db s e now).diagnostics).map (·.avgConfidence) =
        some none) ∧
    (ds ≠ [] →
      ((generate_report_payload db s e now).diagnostics).map (·.avgConfidence) =
        some (some (pyRound ((ds.map (·.confidence)).sum / (ds.length : ℚ)) 4))) := by
  intro ds
  constructor
  · intro hnil
    have hnil' : db.diagnoses.filter (fun d => inPeriod s e d.timestamp) = [] := hnil
    rw [generate_report_payload]
    dsimp only
    rw [hnil']
    rfl
  · intro hne
    have hne' : ¬((db.diagnoses.filter fun d => inPeriod s e d.timestamp).length = 0) := by
      intro hc
      exact hne (List.length_eq_zero.mp hc)
    rw [generate_report_payload]
    dsimp only
    rw [if_neg hne']
    rfl

/-- C5 witness: over the sample database, the empty period `[200, 300]` gives
a null average and the period `[0, 10]` gives the rounded mean. -/
theorem avg_confidence_null_or_rounded_mean_witness :
    ((generate_report_payload sampleDb 200 300 7).diagnostics).map
      (·.avgConfidence) = some none ∧
    ((generate_report_payload sampleDb 0 10 7).diagnostics).map
      (·.avgConfidence) =
      some (some (pyRound
        (((sampleDb.diagnoses.filter fun d => inPeriod 0 10 d.timestamp).map
            (·.confidence)).sum /
          (((sampleDb.diagnoses.filter fun d =>
              inPeriod 0 10 d.timestamp).length : ℚ))) 4)) :=
  ⟨(avg_confidence_null_or_rounded_mean sampleDb 200 300 7).1 (by decide),
   (avg_confidence_null_or_rounded_mean sampleDb 0 10 7).2 (by decide)⟩

/-- C4: every sub-aggregation filters its source rows by the inclusive range
`[period_start, period_end]`; `overdue` additionally requires a deadline
before `now` (the aggregation-time clock, not `period_end`) and an absent
completion timestamp. -/
theorem subaggregations_inclusive_range_except_overdue
    (db : Database) (s e now : Int) :
    ((generate_report_payload db s e now).diagnostics).map (·.total) =
      some (db.diagnoses.countP fun d =>
        decide (s ≤ d.timestamp ∧ d.timestamp ≤ e)) ∧
    ((generate_report_payload db s e now).recommendations).map (·.total) =
      some (db.recommendations.countP fun r =>
        decide (s ≤ r.createdAt ∧ r.createdAt ≤ e)) ∧
    ((generate_report_payload db s e now).tasks).map (·.total) =
      some (db.tasks.countP fun t =>
        decide (s ≤ t.createdAt ∧ t.createdAt ≤ e)) ∧
    ((generate_report_payload db s e now).tasks).map (·.completedOnTime) =
      some (db.tasks.countP fun t =>
        decide (s ≤ t.createdAt ∧ t.createdAt ≤ e) &&
        (match t.completedAt with
         | some c => decide (c ≤ t.deadline)
         | none => false)) ∧
    ((generate_report_payload db s e now).tasks).map (·.overdue) =
      some (db.tasks.countP fun t =>
        decide ((s ≤ t.createdAt ∧ t.createdAt ≤ e) ∧
          t.deadline < now ∧ t.completedAt = none)) := by
  rw [generate_report_payload]
  dsimp only
  refine ⟨?_, ?_, ?_, ?_, ?_⟩
  · rw [Option.map_some', Option.some.injEq]
    exact (List.countP_eq_length_filter _ _).symm
  · rw [Option.map_some', Option.some.injEq]
    exact (List.countP_eq_length_filter _ _).symm
  · rw [Option.map_some', Option.some.injEq]
    exact (List.countP_eq_length_filter _ _).symm
  · rw [Option.map_some', Option.some.injEq]
    dsimp only
    rw [List.filter_filter, ← List.countP_eq_length_filter]
    apply List.countP_congr
    intro a _
    cases hc : a.completedAt <;>
      simp [hc, inPeriod, Bool.and_comm]
  · rw [Option.map_some', Option.some.injEq]
    dsimp only
    rw [List.filter_filter, ← List.countP_eq_length_filter]
    apply List.countP_congr
    intro a _
    cases hc : a.completedAt <;>
      simp [hc, inPeriod, Bool.and_comm, and_assoc]

/-- C3: the spreadsheet and document renderings mirror the report-type
inclusion rules — a `tasks_summary` rendering contains no diagnostics-detail
sheet/section, and a `diagnostics_summary` rendering contains no operator
statistics (no sheet or section carries the operator column). -/
theorem renderings_mirror_inclusion_rules (report : ReportRec)
    (details : DetailedData) (summary : ReportPayload) :
    (report.report_type = "tasks_summary" →
      ((build_excel_report report details summary).all fun s =>
        !sheetIsDiagnostics s) = true ∧
      ((build_pdf_report report details summary).all fun s =>
        !sectionIsDiagnostics s) = true) ∧
    (report.report_type = "diagnostics_summary" →
      ((build_excel_report report details summary).all fun s =>
        !sheetHasOperatorColumn s) = true ∧
      ((build_pdf_report report details summary).all fun s =>
        !sectionHasOperatorColumn s) = true) := by
  constructor
  · intro h
    rw [build_excel_report, build_pdf_report, h]
    constructor
    · rw [if_pos (by simp), if_neg (by simp), if_pos (by simp), if_neg (by simp)]
      rfl
    · rw [if_neg (by simp), if_pos (by simp), if_neg (by simp)]
      rfl
  · intro h
    rw [build_excel_report, build_pdf_report, h]
    constructor
    · rw [if_pos (by simp), if_pos (by simp), if_neg (by simp), if_neg (by simp)]
      rfl
    · rw [if_pos (by simp), if_neg (by simp), if_neg (by simp)]
      rfl

/-- C3 witness: evaluated for a concrete `tasks_summary` artifact and a
concrete `diagnostics_summary` artifact. -/
theorem renderings_mirror_inclusion_rules_witness :
    (((build_excel_report
        { id := 1, userId := 1, userFullName := "Анна", report_type := "tasks_summary",
          period_start := 0, period_end := 10, data := "", generatedAt := 7,
          file_path := "" } { diagnoses := [], recTasks := [] } {}).all fun s =>
      !sheetIsDiagnostics s) = true ∧
     ((build_pdf_report
        { id := 1, userId := 1, userFullName := "Анна", report_type := "tasks_summary",
          period_start := 0, period_end := 10, data := "", generatedAt := 7,
          file_path := "" } { diagnoses := [], recTasks := [] } {}).all fun s =>
      !sectionIsDiagnostics s) = true) ∧
    (((build_excel_report
        { id := 2, userId := 1, userFullName := "Анна",
          report_type := "diagnostics_summary", period_start := 0,
          period_end := 10, data := "", generatedAt := 7,
          file_path := "" } { diagnoses := [], recTasks := [] } {}).all fun s =>
      !sheetHasOperatorColumn s) = true ∧
     ((build_pdf_report
        { id := 2, userId := 1, userFullName := "Анна",
          report_type := "diagnostics_summary", period_start := 0,
          period_end := 10, data := "", generatedAt := 7,
          file_path := "" } { diagnoses := [], recTasks := [] } {}).all fun s =>
      !sectionHasOperatorColumn s) = true) :=
  ⟨(renderings_mirror_inclusion_rules _ _ _).1 rfl,
   (renderings_mirror_inclusion_rules _ _ _).2 rfl⟩

/-- C9: for a persisted artifact whose file pointer is empty or whose stored
file no longer exists, `DownloadReportJSON` returns not-found while
`GetReport` on the same artifact still succeeds, serving the metadata and the
inline payload data. -/
theorem download_notfound_getreport_ok (reports : List ReportRec)
    (fs : List (String × String)) (loads : String → Option Json)
    (pk : Nat) (r : ReportRec)
    (hfind : get_object reports pk = some r)
    (hgone : r.file_path = "" ∨ fsRead fs r.file_path = none) :
    download reports fs pk = Except.error RetrieveError.notFound ∧
    getReport loads reports pk = Except.ok (serialize_report loads r) := by
  constructor
  · rw [download, hfind]
    dsimp only
    rcases hgone with hempty | hmiss
    · rw [if_pos hempty]
    · by_cases hempty : r.file_path = ""
      · rw [if_pos hempty]
      · rw [if_neg hempty, hmiss]
  · rw [getReport, hfind]

/-- C9 witness: a concrete artifact with inline data whose stored file was
deleted out-of-band (empty file system). -/
theorem download_notfound_getreport_ok_witness :
    download
      [{ id := 5, userId := 1, userFullName := "Анна",
         report_type := "full_report", period_start := 0, period_end := 10,
         data := "x", generatedAt := 7,
         file_path := "generated_reports/report_5.json" }] [] 5 =
      Except.error RetrieveError.notFound ∧
    getReport (fun _ => some (Json.str "payload"))
      [{ id := 5, userId := 1, userFullName := "Анна",
         report_type := "full_report", period_start := 0, period_end := 10,
         data := "x", generatedAt := 7,
         file_path := "generated_reports/report_5.json" }] 5 =
      Except.ok (serialize_report (fun _ => some (Json.str "payload"))
        { id := 5, userId := 1, userFullName := "Анна",
          report_type := "full_report", period_start := 0, period_end := 10,
          data := "x", generatedAt := 7,
          file_path := "generated_reports/report_5.json" }) :=
  download_notfound_getreport_ok _ [] (fun _ => some (Json.str "payload")) 5 _
    rfl (Or.inr rfl)

/-- C10: serializing a persisted artifact never fails on the stored inline
payload — empty stored data or undecodable JSON degrade to the empty object,
and valid JSON is returned as parsed. -/
theorem serializer_inline_data_never_fails (loads : String → Option Json)
    (r : ReportRec) :
    (r.data = "" → (serialize_report loads r).data = Json.obj []) ∧
    (loads r.data = none → (serialize_report loads r).data = Json.obj []) ∧
    (∀ v, r.data ≠ "" → loads r.data = some v →
      (serialize_report loads r).data = v) := by
  refine ⟨?_, ?_, ?_⟩
  · intro hempty
    rw [serialize_report]
    dsimp only
    rw [get_data, if_pos hempty]
  · intro hnone
    rw [serialize_report]
    dsimp only
    rw [get_data]
    by_cases hempty : r.data = ""
    · rw [if_pos hempty]
    · rw [if_neg hempty, hnone]
  · intro v hne hsome
    rw [serialize_report]
    dsimp only
    rw [get_data, if_neg hne, hsome]

/-- C10 witness: a record with undecodable stored data serializes to the
empty object. -/
theorem serializer_inline_data_never_fails_witness :
    (serialize_report (fun _ => none)
      { id := 9, userId := 1, userFullName := "Анна",
        report_type := "full_report", period_start := 0, period_end := 10,
        data := "not json", generatedAt := 7, file_path := "" }).data =
      Json.obj [] :=
  (serializer_inline_data_never_fails (fun _ => none) _).2.1 rfl

/-- Filtering distributes over `flatMap`. -/
lemma filter_flatMap {α β : Type} (l : List α) (f : α → List β) (p : β → Bool) :
    (l.flatMap f).filter p = l.flatMap fun a => (f a).filter p := by
  induction l with
  | nil => rfl
  | cons a l ih => simp only [List.flatMap_cons, List.filter_append, ih]

/-- A `flatMap` collapses to one block when the key occurs once and every
other element contributes nothing. -/
lemma flatMap_eq_single {α β : Type} [DecidableEq α] (l : List α)
    (g : α → List β) (x : α) (hone : l.count x = 1)
    (hother : ∀ y ∈ l, y ≠ x → g y = []) :
    l.flatMap g = g x := by
  induction l with
  | nil => simp at hone
  | cons a l ih =>
    rw [List.flatMap_cons]
    by_cases hax : a = x
    · subst hax
      have hx0 : l.count a = 0 := by
        rw [List.count_cons_self] at hone
        omega
      have hnot : a ∉ l := List.count_eq_zero.mp hx0
      have hrest : l.flatMap g = [] := by
        rw [List.flatMap_eq_nil_iff]
        intro y hy
        exact hother y (List.mem_cons_of_mem _ hy)
          (fun hyx => hnot (hyx ▸ hy))
      rw [hrest, List.append_nil]
    · have ha : g a = [] := hother a (List.mem_cons_self a l) hax
      rw [ha, List.nil_append]
      apply ih
      · rw [← hone]
        exact (List.count_cons_of_ne (fun h => hax h.symm) l).symm
      · intro y hy hyx
        exact hother y (List.mem_cons_of_mem _ hy) hyx

/-- Every row a recommendation contributes carries that recommendation's id. -/
lemma rec_task_rows_for_recId (tasks_qs : List Task) (rec : Recommendation) :
    ∀ row ∈ rec_task_rows_for tasks_qs rec, row.recId = rec.id := by
  intro row hrow
  rw [rec_task_rows_for] at hrow
  rcases hfilter : tasks_qs.filter (fun t => decide (t.recommendationId = rec.id)) with
    _ | ⟨t, ts⟩
  · rw [hfilter] at hrow
    simp only [List.mem_singleton] at hrow
    subst hrow
    rfl
  · rw [hfilter] at hrow
    simp only [List.mem_map] at hrow
    obtain ⟨u, _, hu⟩ := hrow
    subst hu
    rfl

/-- C8: for every period and every in-period recommendation, its detail rows
form the left outer join of the recommendation with its in-period tasks: zero
tasks give exactly one row with empty task-side fields, and N > 0 tasks give
exactly N rows, each carrying a task. -/
theorem rec_task_rows_left_outer_join (db : Database) (s e : Int)
    (rec : Recommendation)
    (hmem : rec ∈ db.recommendations)
    (hin : inPeriod s e rec.createdAt = true)
    (hnodup : (db.recommendations.map (·.id)).Nodup) :
    let rows := (fetch_detailed_data db s e).recTasks.filter
      fun row => decide (row.recId = rec.id)
    let ts := db.tasks.filter
      fun t => inPeriod s e t.createdAt && decide (t.recommendationId = rec.id)
    (ts = [] → rows =
      [{ recId := rec.id, plan := rec.treatmentPlanText, taskId := none,
         taskDesc := "", operatorName := "", taskStatus := "", deadline := none,
         completedAt := none }]) ∧
    (ts ≠ [] → rows.length = ts.length ∧
      ∀ row ∈ rows, row.taskId.isSome = true) := by
  intro rows ts
  have hqsnodup : ((db.recommendations.filter fun r =>
      inPeriod s e r.createdAt).insertionSort
        (fun a b => b.createdAt ≤ a.createdAt)).Nodup := by
    refine ((List.perm_insertionSort _ _).nodup_iff).mpr ?_
    exact (List.filter_sublist _).nodup (List.Nodup.of_map _ hnodup)
  have hqmem : rec ∈ (db.recommendations.filter fun r =>
      inPeriod s e r.createdAt).insertionSort
        (fun a b => b.createdAt ≤ a.createdAt) := by
    refine ((List.perm_insertionSort _ _).mem_iff).mpr ?_
    exact List.mem_filter.mpr ⟨hmem, hin⟩
  have hinj : ∀ y ∈ db.recommendations, y.id = rec.id → y = rec := by
    intro y hy hid
    exact List.inj_on_of_nodup_map hnodup hy hmem hid
  have hrows : rows = (rec_task_rows_for
      ((db.tasks.filter fun t => inPeriod s e t.createdAt).insertionSort
        (fun a b => b.createdAt ≤ a.createdAt)) rec).filter
      (fun row => decide (row.recId = rec.id)) := by
    show ((fetch_detailed_data db s e).recTasks.filter
      fun row => decide (row.recId = rec.id)) = _
    rw [fetch_detailed_data]
    dsimp only
    rw [filter_flatMap]
    apply flatMap_eq_single
    · exact List.count_eq_one_of_mem hqsnodup hqmem
    · intro y hy hyne
      rw [List.filter_eq_nil_iff]
      intro row hrow
      have hrid := rec_task_rows_for_recId _ y row hrow
      have hyid : y.id ≠ rec.id := by
        intro hid
        have hy' : y ∈ db.recommendations := by
          have := ((List.perm_insertionSort _ _).mem_iff).mp hy
          exact (List.mem_filter.mp this).1
        exact hyne (hinj y hy' hid)
      simp [hrid, hyid]
  have hfull : (rec_task_rows_for
      ((db.tasks.filter fun t => inPeriod s e t.createdAt).insertionSort
        (fun a b => b.createdAt ≤ a.createdAt)) rec).filter
      (fun row => decide (row.recId = rec.id)) =
      rec_task_rows_for
        ((db.tasks.filter fun t => inPeriod s e t.createdAt).insertionSort
          (fun a b => b.createdAt ≤ a.createdAt)) rec := by
    rw [List.filter_eq_self]
    intro row hrow
    simp [rec_task_rows_for_recId _ _ row hrow]
  have hperm : (((db.tasks.filter fun t => inPeriod s e t.createdAt).insertionSort
      (fun a b => b.createdAt ≤ a.createdAt)).filter
        fun t => decide (t.recommendationId = rec.id)).Perm ts := by
    have h1 := (List.perm_insertionSort
      (fun a b : Task => b.createdAt ≤ a.createdAt)
      (db.tasks.filter fun t => inPeriod s e t.createdAt)).filter
        (fun t => decide (t.recommendationId = rec.id))
    have h2 : ((db.tasks.filter fun t => inPeriod s e t.createdAt).filter
        fun t => decide (t.recommendationId = rec.id)) = ts := by
      rw [List.filter_filter]
      apply List.filter_congr
      intro t _
      rw [Bool.and_comm]
    exact h2 ▸ h1
  rw [hrows, hfull]
  constructor
  · intro hnil
    have hbnil : ((db.tasks.filter fun t => inPeriod s e t.createdAt).insertionSort
        (fun a b => b.createdAt ≤ a.createdAt)).filter
          (fun t => decide (t.recommendationId = rec.id)) = [] := by
      exact (hnil ▸ hperm).eq_nil
    rw [rec_task_rows_for, hbnil]
  · intro hne
    have hbne : ((db.tasks.filter fun t => inPeriod s e t.createdAt).insertionSort
        (fun a b => b.createdAt ≤ a.createdAt)).filter
          (fun t => decide (t.recommendationId = rec.id)) ≠ [] := by
      intro hc
      exact hne ((hc ▸ hperm).symm.eq_nil)
    rcases hfilter : ((db.tasks.filter fun t => inPeriod s e t.createdAt).insertionSort
        (fun a b => b.createdAt ≤ a.createdAt)).filter
          (fun t => decide (t.recommendationId = rec.id)) with _ | ⟨t, tl⟩
    · exact absurd hfilter hbne
    · constructor
      · rw [rec_task_rows_for, hfilter]
        rw [List.length_map]
        rw [← hfilter]
        exact hperm.length_eq
      · intro row hrow
        rw [rec_task_rows_for, hfilter] at hrow
        simp only [List.mem_map] at hrow
        obtain ⟨u, _, hu⟩ := hrow
        subst hu
        rfl

/-- C8 witness: over the sample database on the period `[0, 10]`,
recommendation 2 (whose only task lies outside the period) yields exactly one
row with empty task-side fields. -/
theorem rec_task_rows_left_outer_join_witness :
    (sampleDb.tasks.filter fun t =>
      inPeriod 0 10 t.createdAt &&
        decide (t.recommendationId =
          ({ id := 2, diagnosisId := 2, treatmentPlanText := "p2",
             createdAt := 3 } : Recommendation).id)) = [] ∧
    ((fetch_detailed_data sampleDb 0 10).recTasks.filter
      fun row => decide (row.recId = 2)) =
      [{ recId := 2, plan := "p2", taskId := none, taskDesc := "",
         operatorName := "", taskStatus := "", deadline := none,
         completedAt := none }] :=
  ⟨by decide,
   (rec_task_rows_left_outer_join sampleDb 0 10
      { id := 2, diagnosisId := 2, treatmentPlanText := "p2", createdAt := 3 }
      (by decide) (by decide) (by decide)).1 (by decide)⟩

/-- Looking a fresh record up in an extended table finds exactly it. -/
lemma get_object_append_fresh (l : List ReportRec) (r0 : ReportRec)
    (h : ∀ r ∈ l, r.id ≠ r0.id) :
    get_object (l ++ [r0]) r0.id = some r0 := by
  rw [get_object, List.find?_append]
  have h1 : l.find? (fun r => decide (r.id = r0.id)) = none :=
    List.find?_eq_none.mpr (fun x hx => by simp [h x hx])
  rw [h1]
  simp

/-- Reading a freshly written path returns the written content. -/
lemma fsRead_write_head (fs : List (String × String)) (path c : String) :
    fsRead ((path, c) :: fs) path = some c := by
  rw [fsRead, List.find?_cons_of_pos _ (by simp)]
  rfl

/-- Downloading a record whose file pointer is empty reports not-found. -/
lemma download_eq_notFound_of_empty_path (reports : List ReportRec)
    (fs : List (String × String)) (pk : Nat) (r : ReportRec)
    (hobj : get_object reports pk = some r) (hempty : r.file_path = "") :
    download reports fs pk = Except.error RetrieveError.notFound := by
  rw [download, hobj]
  dsimp only
  rw [if_pos hempty]

/-- C1 counterexample: the record row and the payload file are NOT persisted
together — from an empty state, a `CreateReport` whose file write fails
surfaces a creation failure yet leaves the record committed (listed with full
inline data and an empty file pointer) while no file exists. -/
theorem report_persisted_without_file_counterexample :
    (perform_create (fun _ => "\x7b\x7d") sampleDb
      { reports := [], files := [], audit := [] } 1 "Анна" "full_report"
      0 10 7 5 false).result = CreateResult.persistenceError ∧
    ((perform_create (fun _ => "\x7b\x7d") sampleDb
      { reports := [], files := [], audit := [] } 1 "Анна" "full_report"
      0 10 7 5 false).state.reports.map fun r => (r.id, r.file_path)) =
      [(5, "")] ∧
    (perform_create (fun _ => "\x7b\x7d") sampleDb
      { reports := [], files := [], audit := [] } 1 "Анна" "full_report"
      0 10 7 5 false).state.files = [] ∧
    (getReport (fun _ => some (Json.obj []))
      (perform_create (fun _ => "\x7b\x7d") sampleDb
        { reports := [], files := [], audit := [] } 1 "Анна" "full_report"
        0 10 7 5 false).state.reports 5).isOk = true := by
  refine ⟨rfl, rfl, rfl, rfl⟩

/-- C1 amended: creation is record-first, not atomic — the record (with the
serialized payload inline and an audit entry) is committed before the file
write; if the write fails, the operation surfaces a creation failure, writes
no file, and leaves the record persisted with an empty file pointer, so
downloading that artifact reports not-found while the record itself remains
served; if the write succeeds, the file holds the serialized payload and the
record's pointer names it. -/
theorem report_creation_record_then_file (dumps : ReportPayload → String)
    (db : Database) (st : SysState) (userId : Nat) (uname rt : String)
    (ps pe now : Int) (newId : Nat)
    (hfresh : ∀ r ∈ st.reports, r.id ≠ newId) :
    (let o := perform_create dumps db st userId uname rt ps pe now newId false
     o.result = CreateResult.persistenceError ∧
     o.state.files = st.files ∧
     (∃ rec0 : ReportRec, o.state.reports = st.reports ++ [rec0] ∧
        rec0.id = newId ∧ rec0.file_path = "" ∧
        rec0.data = dumps (build_report_payload_by_type db ps pe now rt) ∧
        ∀ fs, download o.state.reports fs newId =
          Except.error RetrieveError.notFound)) ∧
    (let o := perform_create dumps db st userId uname rt ps pe now newId true
     ∃ rec1 : ReportRec, o.result = CreateResult.created rec1 ∧
       rec1.file_path = report_file_path newId ∧
       fsRead o.state.files rec1.file_path =
         some (dumps (build_report_payload_by_type db ps pe now rt))) := by
  constructor
  · intro o
    refine ⟨rfl, rfl, ?_⟩
    refine ⟨{ id := newId, userId := userId, userFullName := uname,
              report_type := rt, period_start := ps, period_end := pe,
              data := dumps (build_report_payload_by_type db ps pe now rt),
              generatedAt := now, file_path := "" },
            rfl, rfl, rfl, rfl, ?_⟩
    intro fs
    refine download_eq_notFound_of_empty_path _ fs newId
      { id := newId, userId := userId, userFullName := uname,
        report_type := rt, period_start := ps, period_end := pe,
        data := dumps (build_report_payload_by_type db ps pe now rt),
        generatedAt := now, file_path := "" }
      ?_ rfl
    exact get_object_append_fresh st.reports _ hfresh
  · intro o
    exact ⟨{ id := newId, userId := userId, userFullName := uname,
             report_type := rt, period_start := ps, period_end := pe,
             data := dumps (build_report_payload_by_type db ps pe now rt),
             generatedAt := now, file_path := report_file_path newId },
           rfl, rfl, fsRead_write_head _ _ _⟩

/-- C1 amended witness: evaluated from the empty state over the sample
database; the freshness hypothesis is discharged on the empty table. -/
theorem report_creation_record_then_file_witness :
    (let o := perform_create (fun _ => "\x7b\x7d") sampleDb
      { reports := [], files := [], audit := [] } 1 "Анна" "full_report"
      0 10 7 5 false
     o.result = CreateResult.persistenceError ∧
     o.state.files = [] ∧
     (∃ rec0 : ReportRec, o.state.reports = [] ++ [rec0] ∧
        rec0.id = 5 ∧ rec0.file_path = "" ∧
        rec0.data = "\x7b\x7d" ∧
        ∀ fs, download o.state.reports fs 5 =
          Except.error RetrieveError.notFound)) ∧
    (let o := perform_create (fun _ => "\x7b\x7d") sampleDb
      { reports := [], files := [], audit := [] } 1 "Анна" "full_report"
      0 10 7 5 true
     ∃ rec1 : ReportRec, o.result = CreateResult.created rec1 ∧
       rec1.file_path = report_file_path 5 ∧
       fsRead o.state.files rec1.file_path = some "\x7b\x7d") :=
  report_creation_record_then_file (fun _ => "\x7b\x7d") sampleDb
    { reports := [], files := [], audit := [] } 1 "Анна" "full_report"
    0 10 7 5 (by intro r hr; cases hr)

end FitoTomat
